import Mathlib

/-!
Verification of the session/action lifecycle of the US Kia client
(`us_kia.py`, `util_http.py`, `util.py`, `const.py`), as a shallow
embedding: Python dictionaries become association lists over a `Json`
value type, the mutable client object becomes an explicit `ClientState`,
and HTTP traffic is modelled by a scripted oracle (`World.script`) plus a
trace of the requests actually sent (`World.sent`).
-/

/-- JSON-ish values, the payload language of the API bodies
(Python dicts/lists/strings/numbers/bools/None). -/
inductive Json where
  | str (s : String)
  | num (n : Int)
  | bool (b : Bool)
  | null
  | obj (entries : List (String × Json))
  | arr (items : List Json)

/-- Dictionary lookup, `d[k]` / `k in d` on a Python dict. -/
def jlookup (d : List (String × Json)) (k : String) : Option Json :=
  match d with
  | [] => none
  | (k1, v) :: rest => if k1 = k then some v else jlookup rest k

/-- Python truthiness of an optional JSON value (`payload.get(k)` tests). -/
def jtruthy : Option Json → Bool
  | none => false
  | some Json.null => false
  | some (Json.bool b) => b
  | some (Json.num n) => n != 0
  | some (Json.str s) => !s.isEmpty
  | some (Json.obj d) => !d.isEmpty
  | some (Json.arr a) => !a.isEmpty

/-- Python `v == 0` on a JSON value (`0 == 0` and `False == 0` hold). -/
def jeqZero : Json → Bool
  | Json.num n => n == 0
  | Json.bool b => !b
  | _ => false

/-- Python `str.lower()` (ASCII), written over the character list so
that it evaluates by definitional unfolding. -/
def pyLower (s : String) : String := String.mk (s.data.map Char.toLower)

/-- Python `str.upper()` (ASCII). -/
def pyUpper (s : String) : String := String.mk (s.data.map Char.toUpper)

/-- Python `str.strip()`: drop whitespace from both ends. -/
def pyStrip (s : String) : String :=
  String.mk (((s.data.dropWhile Char.isWhitespace).reverse.dropWhile
    Char.isWhitespace).reverse)

/-- `SENSITIVE_FIELD_NAMES` from `const.py`. -/
def SENSITIVE_FIELD_NAMES : List String :=
  [("username"), ("password"), ("userid"), ("vin"), ("sid"), ("vinkey"),
   ("lat"), ("lon")]

mutual

/-- `clean_dictionary_for_logging` from `util.py`: redact sensitive keys
(case-insensitively), recursing into dict values and into dict items of
list values.  A sensitive key's value is replaced by "***" before the
dict/list tests run, so it is never recursed into. -/
def clean_dictionary_for_logging : List (String × Json) → List (String × Json)
  | [] => []
  | (k, v) :: rest =>
      (k, if SENSITIVE_FIELD_NAMES.contains (pyLower k) then Json.str ("***")
          else clean_value v) :: clean_dictionary_for_logging rest

/-- The per-value step of `clean_dictionary_for_logging` for a
non-sensitive key: recurse into dicts and lists, leave the rest alone. -/
def clean_value (v : Json) : Json :=
  match v with
  | Json.obj d => Json.obj (clean_dictionary_for_logging d)
  | Json.arr items => Json.arr (clean_items items)
  | other => other

/-- The list branch of `clean_dictionary_for_logging`: dict items are
cleaned recursively, any other item is kept as is. -/
def clean_items : List Json → List Json
  | [] => []
  | x :: rest =>
      (match x with
       | Json.obj d => Json.obj (clean_dictionary_for_logging d)
       | other => other) :: clean_items rest

end

mutual

theorem clean_dictionary_for_logging_idem (d : List (String × Json)) :
    clean_dictionary_for_logging (clean_dictionary_for_logging d) =
      clean_dictionary_for_logging d :=
  match d with
  | [] => rfl
  | (k, v) :: rest => by
      by_cases hs : pyLower k ∈ SENSITIVE_FIELD_NAMES
      · simp [clean_dictionary_for_logging, hs,
          clean_dictionary_for_logging_idem rest, clean_value]
      · simp [clean_dictionary_for_logging, hs,
          clean_dictionary_for_logging_idem rest, clean_value_idem v]

theorem clean_value_idem (v : Json) :
    clean_value (clean_value v) = clean_value v :=
  match v with
  | Json.obj d => by
      simp [clean_value, clean_dictionary_for_logging_idem d]
  | Json.arr items => by
      simp [clean_value, clean_items_idem items]
  | Json.str s => rfl
  | Json.num n => rfl
  | Json.bool b => rfl
  | Json.null => rfl

theorem clean_items_idem (l : List Json) :
    clean_items (clean_items l) = clean_items l :=
  match l with
  | [] => rfl
  | x :: rest => by
      cases x <;>
        simp [clean_items, clean_items_idem rest,
          clean_dictionary_for_logging_idem]

end

/-- `SeatSettings` enum from `const.py`. -/
inductive SeatSettings where
  | NONE
  | HeatHigh
  | HeatMedium
  | HeatLow
  | CoolHigh
  | CoolMedium
  | CoolLow
deriving DecidableEq

/-- `_seat_settings` from `us_kia.py`: derive the wire-format seat block
from a seat setting enum (the `None`/`NONE` cases fall to the default). -/
def seat_settings_json (level : Option SeatSettings) : Json :=
  match level with
  | some SeatSettings.HeatHigh =>
      Json.obj [(("heatVentType"), Json.num 1), (("heatVentLevel"), Json.num 4),
                (("heatVentStep"), Json.num 1)]
  | some SeatSettings.HeatMedium =>
      Json.obj [(("heatVentType"), Json.num 1), (("heatVentLevel"), Json.num 3),
                (("heatVentStep"), Json.num 2)]
  | some SeatSettings.HeatLow =>
      Json.obj [(("heatVentType"), Json.num 1), (("heatVentLevel"), Json.num 2),
                (("heatVentStep"), Json.num 3)]
  | some SeatSettings.CoolHigh =>
      Json.obj [(("heatVentType"), Json.num 2), (("heatVentLevel"), Json.num 4),
                (("heatVentStep"), Json.num 1)]
  | some SeatSettings.CoolMedium =>
      Json.obj [(("heatVentType"), Json.num 2), (("heatVentLevel"), Json.num 3),
                (("heatVentStep"), Json.num 2)]
  | some SeatSettings.CoolLow =>
      Json.obj [(("heatVentType"), Json.num 2), (("heatVentLevel"), Json.num 2),
                (("heatVentStep"), Json.num 3)]
  | _ =>
      Json.obj [(("heatVentType"), Json.num 0), (("heatVentLevel"), Json.num 1),
                (("heatVentStep"), Json.num 0)]

/-- The Last Action Marker, `self.last_action` in `us_kia.py`: the dict
`{"name": ..., "xid": ...}` (the xid can be `None` in the OTP login path). -/
structure LastAction where
  name : String
  xid : Option String
deriving DecidableEq

/-- The mutable instance state of a `UsKia` client. -/
structure ClientState where
  username : String
  password : String
  device_id : String
  session_id : Option String := none
  otp_key : Option String := none
  notify_type : Option String := none
  refresh_token : Option String := none
  vehicles : Option (List Json) := none
  last_action : Option LastAction := none

/-- The state-dependent request headers produced by `_api_headers`
(the fixed client-identity and date headers are constants of no
behavioural interest and are omitted). -/
structure Headers where
  sid : Option String := none
  rmtoken : Option String := none
  otpkey : Option String := none
  notifytype : Option String := none
  xid : Option String := none
  vinkey : Option String := none
deriving DecidableEq

inductive Method where
  | get
  | post
deriving DecidableEq

/-- One outbound HTTP request. -/
structure Request where
  method : Method
  url : String
  headers : Headers
  body : Option Json

/-- A decoded HTTP response: the parsed JSON body is split into its
`status` object fields plus the `payload` value (`json = none` models a
body that cannot be parsed as JSON), together with the response headers
the client reads (`sid`, `xid` case-insensitively, `rmtoken`). -/
structure ResponseBody where
  statusCode : Int
  errorType : Int := 0
  errorCode : Int := 0
  errorMessage : String := ""
  payload : Option Json := none

structure Response where
  json : Option ResponseBody
  text : String := ""
  sid : Option String := none
  xid : Option String := none
  rmtoken : Option String := none

/-- Modelled from the spec: the typed failure taxonomy of the library
(`errors.py` is not among the sources; only the distinctness of the
exception classes `AuthError` and `ActionAlreadyInProgressError` from
each other and from `ClientError`, `ValueError` and plain `Exception`
is used, as the spec's section 7 describes).  `pythonError` stands for
interpreter-level failures (`KeyError`, `TypeError`) on malformed data
and `scriptExhausted` is a device of the oracle model for a run that
needs more responses than were scripted. -/
inductive ApiErr where
  | authInvalid (msg : String)
  | actionAlreadyInProgress (msg : String)
  | clientError (msg : String)
  | valueError (msg : String)
  | otpVerifyFailed (msg : String)
  | pythonError (msg : String)
  | scriptExhausted
deriving DecidableEq

/-- The world a run executes in: the client state, the responses the
server will give (consumed in order), and the trace of sent requests. -/
structure World where
  client : ClientState
  script : List Response
  sent : List Request

/-- State-and-error monad over `World`: each operation returns the new
world and either a value or the raised error. -/
def M (α : Type) : Type := World → World × Except ApiErr α

def mPure {α : Type} (a : α) : M α := fun w => (w, Except.ok a)

def mRaise {α : Type} (e : ApiErr) : M α := fun w => (w, Except.error e)

def mBind {α β : Type} (x : M α) (f : α → M β) : M β := fun w =>
  match x w with
  | (w1, Except.ok a) => f a w1
  | (w1, Except.error e) => (w1, Except.error e)

def mGetClient : M ClientState := fun w => (w, Except.ok w.client)

def mModify (f : ClientState → ClientState) : M Unit := fun w =>
  ({ w with client := f w.client }, Except.ok ())

/-- Python `try ... finally`: run the body, then apply the cleanup
mutation to the client whatever the outcome, propagating the outcome. -/
def mFinally {α : Type} (body : M α) (fin : ClientState → ClientState) :
    M α := fun w =>
  match body w with
  | (w1, r) => ({ w1 with client := fin w1.client }, r)

/-- Perform the HTTP exchange itself: record the request in the trace
and consume the next scripted response. -/
def mSend (req : Request) : M Response := fun w =>
  match w.script with
  | [] => ({ w with sent := w.sent ++ [req] }, Except.error ApiErr.scriptExhausted)
  | r :: rest =>
      ({ w with script := rest, sent := w.sent ++ [req] }, Except.ok r)

/-- `API_URL_HOST` / `API_URL_BASE` from `const.py`. -/
def API_URL_BASE : String := "https://api.owners.kia.com/apigw/v1/"

def authUser_url : String := API_URL_BASE ++ "prof/authUser"
def sendOTP_url : String := API_URL_BASE ++ "cmm/sendOTP"
def verifyOTP_url : String := API_URL_BASE ++ "cmm/verifyOTP"
def gvl_url : String := API_URL_BASE ++ "ownr/gvl"
def gvi_url : String := API_URL_BASE ++ "cmm/gvi"
def gts_url : String := API_URL_BASE ++ "cmm/gts"
def lock_url : String := API_URL_BASE ++ "rems/door/lock"
def unlock_url : String := API_URL_BASE ++ "rems/door/unlock"
def start_climate_url : String := API_URL_BASE ++ "rems/start"
def stop_climate_url : String := API_URL_BASE ++ "rems/stop"
def start_charge_url : String := API_URL_BASE ++ "evc/charge"
def stop_charge_url : String := API_URL_BASE ++ "evc/cancel"
def set_charge_limits_url : String := API_URL_BASE ++ "evc/sts"

/-- Python truthiness of an optional string (`if self.session_id:`,
`if not session_id or not rmtoken:`). -/
def strTruthy : Option String → Bool
  | none => false
  | some s => !s.isEmpty

/-- `_api_headers` from `us_kia.py`, restricted to the state-dependent
headers: `sid`, `rmtoken`, `otpkey`/`notifytype`/`xid` (with the two
`ValueError` preconditions of the OTP block; the `xid` check is
`"xid" in self.last_action`, which holds whenever the marker dict
exists since it is always created with an `"xid"` key), and `vinkey`. -/
def api_headers (c : ClientState) (vehicle_key : Option String) :
    Except ApiErr Headers :=
  let h0 : Headers :=
    { sid := c.session_id, rmtoken := c.refresh_token }
  match c.otp_key with
  | none =>
      Except.ok { h0 with vinkey := vehicle_key }
  | some k =>
      match c.notify_type with
      | none => Except.error (ApiErr.valueError
          ("notify_type must be set before sending OTP"))
      | some nt =>
          match c.last_action with
          | none => Except.error (ApiErr.valueError
              ("xid(last_action) must be set before sending OTP"))
          | some la =>
              Except.ok { h0 with otpkey := some k, notifytype := some nt,
                                  xid := la.xid, vinkey := vehicle_key }

/-- The response-classification step of the `request_with_logging`
decorator in `util_http.py`: status code 0 passes the response through;
the enumerated session-invalid codes raise `AuthError`; the (only then
reached) action-conflict test clears the Last Action Marker and raises
`ActionAlreadyInProgressError`; anything else raises `ClientError`, as
does an unparseable body. -/
def request_with_logging_classify (resp : Response) : M Response := fun w =>
  match resp.json with
  | none =>
      (w, Except.error (ApiErr.clientError
        ("unknown error response " ++ resp.text)))
  | some b =>
      if b.statusCode == 0 then
        (w, Except.ok resp)
      else if b.statusCode == 1 && b.errorType == 1 &&
          (b.errorCode == 1001 || b.errorCode == 1003 ||
           b.errorCode == 1005 || b.errorCode == 1037) then
        (w, Except.error (ApiErr.authInvalid ("")))
      else if b.statusCode == 1 && b.errorType == 1 && b.errorCode == 1001 then
        ({ w with client := { w.client with last_action := none } },
         Except.error (ApiErr.actionAlreadyInProgress
           ("api error:" ++ b.errorMessage)))
      else
        (w, Except.error (ApiErr.clientError
          ("api error:" ++ b.errorMessage)))

/-- Build headers from the current state, send, classify: the common
trunk of `_post_request_with_logging_and_errors_raised` and
`_get_request_with_logging_and_errors_raised` after their login step. -/
def send_and_classify (meth : Method) (vehicle_key : Option String)
    (url : String) (json_body : Option Json) : M Response :=
  mBind mGetClient fun c =>
  match api_headers c vehicle_key with
  | Except.error e => mRaise e
  | Except.ok hs =>
      mBind (mSend { method := meth, url := url, headers := hs,
                     body := json_body }) fun resp =>
      request_with_logging_classify resp

/-- The two stages of the OTP callback protocol. -/
inductive OtpStage where
  | choose_destination
  | input_code
deriving DecidableEq

/-- The argument mapping passed to the OTP callback (`ctx_choice` /
`ctx_code` in `login`); fields irrelevant to a stage keep defaults. -/
structure OtpCtx where
  stage : OtpStage
  hasEmail : Bool := false
  hasPhone : Bool := false
  email : Json := Json.str "N/A"
  phone : Json := Json.str "N/A"
  notify_type : String := ""
  otpKey : String := ""
  xid : Option String := none

/-- The mapping the OTP callback returns (`.get` semantics: a missing
key is `none`). -/
structure CbResp where
  notify_type : Option String := none
  otp_code : Option String := none

/-- The externally supplied OTP callback, modelled as a pure function. -/
def OtpCallback : Type := OtpCtx → CbResp

/-- `_send_otp` from `us_kia.py`: validate the channel, require an OTP
key, record the channel, POST `cmm/sendOTP` with an empty body. -/
def send_otp (notify_type : String) : M Unit :=
  mBind mGetClient fun c =>
  if !(notify_type == "EMAIL" || notify_type == "SMS") then
    mRaise (ApiErr.valueError ("Invalid notify_type " ++ notify_type))
  else if c.otp_key == none then
    mRaise (ApiErr.valueError ("OTP key required"))
  else
    mBind (mModify fun c1 => { c1 with notify_type := some notify_type })
      fun _ =>
    mBind (send_and_classify Method.post none sendOTP_url
      (some (Json.obj []))) fun _ =>
    mPure ()

/-- `_verify_otp` from `us_kia.py`: POST the code, clear the OTP state,
then require `sid` and `rmtoken` response headers and store them (its
own status-code re-check sits behind the classifier and uses a plain
`Exception`). -/
def verify_otp (otp_code : String) : M Unit :=
  mBind (send_and_classify Method.post none verifyOTP_url
    (some (Json.obj [(("otp"), Json.str otp_code)]))) fun resp =>
  mBind (mModify fun c => { c with last_action := none, otp_key := none,
                                   notify_type := none }) fun _ =>
  match resp.json with
  | none => mRaise (ApiErr.pythonError ("json parse"))
  | some b =>
      if !(b.statusCode == 0) then
        mRaise (ApiErr.otpVerifyFailed
          ("OTP verification failed: " ++ b.errorMessage))
      else if !(strTruthy resp.sid) || !(strTruthy resp.rmtoken) then
        mRaise (ApiErr.authInvalid
          ("No session_id or rmtoken in OTP verification response"))
      else
        mModify fun c => { c with session_id := resp.sid,
                                  refresh_token := resp.rmtoken }

/-- The body sent by `login`. -/
def login_body (c : ClientState) : Json :=
  Json.obj [(("deviceKey"), Json.str ("")),
            (("deviceType"), Json.num 2),
            (("userCredential"),
             Json.obj [(("userId"), Json.str c.username),
                       (("password"), Json.str c.password)])]

/-- `login` from `us_kia.py`.  The fuel bounds the recursive
`await self.login()` after a successful OTP verification (the source
recursion is unbounded; running out of fuel is a model-side error).
The POSTs inside login run with `authed=False`, so they never re-enter
login themselves. -/
def login (cb : OtpCallback) : Nat → M Unit
  | 0 => mRaise (ApiErr.pythonError ("RecursionError"))
  | fuel + 1 =>
    mBind mGetClient fun c0 =>
    mBind (send_and_classify Method.post none authUser_url
      (some (login_body c0))) fun resp =>
    mBind (mModify fun c => { c with session_id := resp.sid }) fun _ =>
    if strTruthy resp.sid then
      mPure ()
    else
      match resp.json with
      | none => mRaise (ApiErr.pythonError ("json parse"))
      | some b =>
          match b.payload with
          | some (Json.obj payload) =>
              (match jlookup payload ("otpKey") with
               | some (Json.str otpKey) =>
                   mFinally
                     (mBind (if jtruthy (jlookup payload ("rmTokenExpired"))
                             then mModify fun c =>
                               { c with refresh_token := none }
                             else mPure ()) fun _ =>
                      mBind (mModify fun c =>
                        { c with otp_key := some otpKey,
                                 last_action := some
                                   { name := "one_time_password",
                                     xid := resp.xid } }) fun _ =>
                      let ctx_choice : OtpCtx :=
                        { stage := OtpStage.choose_destination,
                          hasEmail := jtruthy (jlookup payload ("hasEmail")),
                          hasPhone := jtruthy (jlookup payload ("hasPhone")),
                          email := (jlookup payload ("email")).getD
                            (Json.str ("N/A")),
                          phone := (jlookup payload ("phone")).getD
                            (Json.str ("N/A")) }
                      let notify_type :=
                        pyUpper ((cb ctx_choice).notify_type.getD ("EMAIL"))
                      mBind (send_otp notify_type) fun _ =>
                      mBind mGetClient fun c1 =>
                      let ctx_code : OtpCtx :=
                        { stage := OtpStage.input_code,
                          notify_type := notify_type,
                          otpKey := otpKey,
                          xid := (c1.last_action.map LastAction.xid).join }
                      let otp_code :=
                        pyStrip ((cb ctx_code).otp_code.getD (""))
                      if otp_code == "" then
                        mRaise (ApiErr.authInvalid ("OTP code required"))
                      else
                        mBind (verify_otp otp_code) fun _ =>
                        login cb fuel)
                     (fun c => { c with otp_key := none, last_action := none,
                                        notify_type := none })
               | some _ => mRaise (ApiErr.pythonError ("otpKey not a string"))
               | none => mRaise (ApiErr.authInvalid
                   ("No session id returned in login")))
          | some _ => mRaise (ApiErr.pythonError
              ("TypeError: argument of type is not iterable"))
          | none => mRaise (ApiErr.authInvalid
              ("No session id returned in login"))

/-- `_post_request_with_logging_and_errors_raised` with `authed=True`:
log in first when there is no session, then send and classify. -/
def post_request (cb : OtpCallback) (fuel : Nat)
    (vehicle_key : Option String) (url : String) (json_body : Json) :
    M Response :=
  mBind mGetClient fun c =>
  mBind (if c.session_id == none then login cb fuel else mPure ()) fun _ =>
  send_and_classify Method.post vehicle_key url (some json_body)

/-- `_get_request_with_logging_and_errors_raised` with `authed=True`. -/
def get_request (cb : OtpCallback) (fuel : Nat)
    (vehicle_key : Option String) (url : String) : M Response :=
  mBind mGetClient fun c =>
  mBind (if c.session_id == none then login cb fuel else mPure ()) fun _ =>
  send_and_classify Method.get vehicle_key url none

/-- The `request_with_active_session` decorator from `util_http.py`:
on `AuthError` clear session id, vehicle directory and Last Action
Marker, then run the wrapped coroutine once more; any outcome of that
second run (including a second `AuthError`) is returned as is. -/
def request_with_active_session {α : Type} (inner : M α) : M α := fun w =>
  match inner w with
  | (w1, Except.error (ApiErr.authInvalid m)) =>
      let _ := m
      let w2 := { w1 with client :=
        { w1.client with session_id := none, vehicles := none,
                         last_action := none } }
      inner w2
  | other => other

/-- The directory scan inside `find_vehicle_key`:
`for vehicle in self.vehicles: if vehicle["vehicleIdentifier"] == vehicle_id:
return vehicle["vehicleKey"]`. -/
def scan_vehicles (vs : List Json) (vehicle_id : String) :
    Except ApiErr (Option String) :=
  match vs with
  | [] => Except.ok none
  | item :: rest =>
      match item with
      | Json.obj fields =>
          match jlookup fields ("vehicleIdentifier") with
          | none => Except.error (ApiErr.pythonError
              ("KeyError: vehicleIdentifier"))
          | some idv =>
              (match idv with
               | Json.str s =>
                   if s = vehicle_id then
                     match jlookup fields ("vehicleKey") with
                     | some (Json.str k) => Except.ok (some k)
                     | some _ => Except.error (ApiErr.pythonError
                         ("vehicleKey not a string"))
                     | none => Except.error (ApiErr.pythonError
                         ("KeyError: vehicleKey"))
                   else scan_vehicles rest vehicle_id
               | _ => scan_vehicles rest vehicle_id)
      | _ => Except.error (ApiErr.pythonError ("TypeError: not a dict"))

/-- The undecorated body of `get_vehicles`: GET `ownr/gvl` and store
`response_json["payload"]["vehicleSummary"]` as the directory cache. -/
def get_vehicles_inner (cb : OtpCallback) (fuel : Nat) : M Unit :=
  mBind (get_request cb fuel none gvl_url) fun resp =>
  match resp.json with
  | none => mRaise (ApiErr.pythonError ("json parse"))
  | some b =>
      match b.payload with
      | some (Json.obj payload) =>
          (match jlookup payload ("vehicleSummary") with
           | some (Json.arr items) =>
               mModify fun c => { c with vehicles := some items }
           | some _ => mRaise (ApiErr.pythonError
               ("vehicleSummary not a list"))
           | none => mRaise (ApiErr.pythonError ("KeyError: vehicleSummary")))
      | _ => mRaise (ApiErr.pythonError ("KeyError: payload"))

/-- `get_vehicles` from `us_kia.py` (decorated with
`request_with_active_session`). -/
def get_vehicles (cb : OtpCallback) (fuel : Nat) : M Unit :=
  request_with_active_session (get_vehicles_inner cb fuel)

/-- `find_vehicle_key` from `us_kia.py`: fetch the directory when the
cache is empty, then scan it; a miss is fatal (`ValueError`), with no
second fetch. -/
def find_vehicle_key (cb : OtpCallback) (fuel : Nat) (vehicle_id : String) :
    M String :=
  mBind mGetClient fun c =>
  mBind (if c.vehicles.isNone then get_vehicles cb fuel else mPure ())
    fun _ =>
  mBind mGetClient fun c1 =>
  match c1.vehicles with
  | none => mRaise (ApiErr.valueError ("no vehicles found"))
  | some vs =>
      match scan_vehicles vs vehicle_id with
      | Except.ok (some k) => mPure k
      | Except.ok none => mRaise (ApiErr.valueError
          ("vehicle key for id:" ++ vehicle_id ++ " not found"))
      | Except.error e => mRaise e

/-- The undecorated body of `check_last_action_finished`: resolve the
vehicle key first, then report finished at once when no marker exists;
otherwise poll `cmm/gts` with the marker's xid, report whether every
payload value equals 0, and clear the marker on completion. -/
def check_last_action_finished_inner (cb : OtpCallback) (fuel : Nat)
    (vehicle_id : String) : M Bool :=
  mBind (find_vehicle_key cb fuel vehicle_id) fun vehicle_key =>
  mBind mGetClient fun c =>
  match c.last_action with
  | none => mPure true
  | some la =>
      let body := Json.obj [(("xid"),
        match la.xid with
        | some x => Json.str x
        | none => Json.null)]
      mBind (post_request cb fuel (some vehicle_key) gts_url body) fun resp =>
      match resp.json with
      | none => mRaise (ApiErr.pythonError ("json parse"))
      | some b =>
          match b.payload with
          | some (Json.obj payload) =>
              let finished := payload.all fun kv => jeqZero kv.2
              mBind (if finished then
                       mModify fun c1 => { c1 with last_action := none }
                     else mPure ()) fun _ =>
              mPure finished
          | _ => mRaise (ApiErr.pythonError ("payload not a dict"))

/-- `check_last_action_finished` from `us_kia.py` (decorated with
`request_with_active_session`). -/
def check_last_action_finished (cb : OtpCallback) (fuel : Nat)
    (vehicle_id : String) : M Bool :=
  request_with_active_session
    (check_last_action_finished_inner cb fuel vehicle_id)

/-- The shared prelude of every state-changing command: poll the last
action through the decorated `check_last_action_finished` and raise
`ActionAlreadyInProgressError` when it is not finished (the message
reads the still-present marker's name; a vanished marker there would be
a Python `TypeError`). -/
def require_no_pending_action (cb : OtpCallback) (fuel : Nat)
    (vehicle_id : String) : M Unit :=
  mBind (check_last_action_finished cb fuel vehicle_id) fun finished =>
  if finished == false then
    mBind mGetClient fun c =>
    match c.last_action with
    | some la => mRaise (ApiErr.actionAlreadyInProgress
        (la.name ++ " still pending"))
    | none => mRaise (ApiErr.pythonError ("TypeError: NoneType"))
  else mPure ()

/-- The shared epilogue of every state-changing command: record the
response's `Xid` header as the new Last Action Marker (a missing header
is a Python `KeyError`). -/
def record_last_action (action_name : String) (resp : Response) : M Unit :=
  match resp.xid with
  | some x => mModify fun c =>
      { c with last_action := some { name := action_name, xid := some x } }
  | none => mRaise (ApiErr.pythonError ("KeyError: Xid"))

/-- The undecorated body of `lock`. -/
def lock_inner (cb : OtpCallback) (fuel : Nat) (vehicle_id : String) :
    M Unit :=
  mBind (require_no_pending_action cb fuel vehicle_id) fun _ =>
  mBind (find_vehicle_key cb fuel vehicle_id) fun vehicle_key =>
  mBind (get_request cb fuel (some vehicle_key) lock_url) fun resp =>
  record_last_action ("lock") resp

/-- `lock` from `us_kia.py`. -/
def lock (cb : OtpCallback) (fuel : Nat) (vehicle_id : String) : M Unit :=
  request_with_active_session (lock_inner cb fuel vehicle_id)

/-- The undecorated body of `unlock`. -/
def unlock_inner (cb : OtpCallback) (fuel : Nat) (vehicle_id : String) :
    M Unit :=
  mBind (require_no_pending_action cb fuel vehicle_id) fun _ =>
  mBind (find_vehicle_key cb fuel vehicle_id) fun vehicle_key =>
  mBind (get_request cb fuel (some vehicle_key) unlock_url) fun resp =>
  record_last_action ("unlock") resp

/-- `unlock` from `us_kia.py`. -/
def unlock (cb : OtpCallback) (fuel : Nat) (vehicle_id : String) : M Unit :=
  request_with_active_session (unlock_inner cb fuel vehicle_id)

/-- The request body built by `start_climate`. -/
def start_climate_body (set_temp : Int) (defrost climate heating : Bool)
    (driver_seat passenger_seat left_rear_seat right_rear_seat :
      Option SeatSettings) : Json :=
  let remoteClimate : List (String × Json) :=
    [(("airCtrl"), Json.bool climate),
     (("airTemp"), Json.obj [(("unit"), Json.num 1),
                             (("value"), Json.str (toString set_temp))]),
     (("defrost"), Json.bool defrost),
     (("heatingAccessory"),
      Json.obj [(("rearWindow"), Json.num (if heating then 1 else 0)),
                (("sideMirror"), Json.num (if heating then 1 else 0)),
                (("steeringWheel"), Json.num (if heating then 1 else 0))]),
     (("ignitionOnDuration"),
      Json.obj [(("unit"), Json.num 4), (("value"), Json.num 9)])]
  let remoteClimate :=
    if driver_seat.isSome || passenger_seat.isSome ||
       left_rear_seat.isSome || right_rear_seat.isSome then
      remoteClimate ++
        [(("heatVentSeat"),
          Json.obj [(("driverSeat"), seat_settings_json driver_seat),
                    (("passengerSeat"), seat_settings_json passenger_seat),
                    (("rearLeftSeat"), seat_settings_json left_rear_seat),
                    (("rearRightSeat"), seat_settings_json right_rear_seat)])]
    else remoteClimate
  Json.obj [(("remoteClimate"), Json.obj remoteClimate)]

/-- The undecorated body of `start_climate`. -/
def start_climate_inner (cb : OtpCallback) (fuel : Nat) (vehicle_id : String)
    (set_temp : Int) (defrost climate heating : Bool)
    (driver_seat passenger_seat left_rear_seat right_rear_seat :
      Option SeatSettings) : M Unit :=
  mBind (require_no_pending_action cb fuel vehicle_id) fun _ =>
  mBind (find_vehicle_key cb fuel vehicle_id) fun vehicle_key =>
  mBind (post_request cb fuel (some vehicle_key) start_climate_url
    (start_climate_body set_temp defrost climate heating driver_seat
      passenger_seat left_rear_seat right_rear_seat)) fun resp =>
  record_last_action ("start_climate") resp

/-- `start_climate` from `us_kia.py`. -/
def start_climate (cb : OtpCallback) (fuel : Nat) (vehicle_id : String)
    (set_temp : Int) (defrost climate heating : Bool)
    (driver_seat passenger_seat left_rear_seat right_rear_seat :
      Option SeatSettings) : M Unit :=
  request_with_active_session (start_climate_inner cb fuel vehicle_id
    set_temp defrost climate heating driver_seat passenger_seat
    left_rear_seat right_rear_seat)

/-- The undecorated body of `stop_climate`. -/
def stop_climate_inner (cb : OtpCallback) (fuel : Nat) (vehicle_id : String) :
    M Unit :=
  mBind (require_no_pending_action cb fuel vehicle_id) fun _ =>
  mBind (find_vehicle_key cb fuel vehicle_id) fun vehicle_key =>
  mBind (get_request cb fuel (some vehicle_key) stop_climate_url) fun resp =>
  record_last_action ("stop_climate") resp

/-- `stop_climate` from `us_kia.py`. -/
def stop_climate (cb : OtpCallback) (fuel : Nat) (vehicle_id : String) :
    M Unit :=
  request_with_active_session (stop_climate_inner cb fuel vehicle_id)

/-- The undecorated body of `start_charge`. -/
def start_charge_inner (cb : OtpCallback) (fuel : Nat)
    (vehicle_id : String) : M Unit :=
  mBind (require_no_pending_action cb fuel vehicle_id) fun _ =>
  mBind (find_vehicle_key cb fuel vehicle_id) fun vehicle_key =>
  mBind (post_request cb fuel (some vehicle_key) start_charge_url
    (Json.obj [(("chargeRatio"), Json.num 100)])) fun resp =>
  record_last_action ("start_charge") resp

/-- `start_charge` from `us_kia.py`. -/
def start_charge (cb : OtpCallback) (fuel : Nat) (vehicle_id : String) :
    M Unit :=
  request_with_active_session (start_charge_inner cb fuel vehicle_id)

/-- The undecorated body of `stop_charge`. -/
def stop_charge_inner (cb : OtpCallback) (fuel : Nat)
    (vehicle_id : String) : M Unit :=
  mBind (require_no_pending_action cb fuel vehicle_id) fun _ =>
  mBind (find_vehicle_key cb fuel vehicle_id) fun vehicle_key =>
  mBind (get_request cb fuel (some vehicle_key) stop_charge_url) fun resp =>
  record_last_action ("stop_charge") resp

/-- `stop_charge` from `us_kia.py`. -/
def stop_charge (cb : OtpCallback) (fuel : Nat) (vehicle_id : String) :
    M Unit :=
  request_with_active_session (stop_charge_inner cb fuel vehicle_id)

/-- The request body built by `set_charge_limits`. -/
def set_charge_limits_body (ac_limit dc_limit : Int) : Json :=
  Json.obj [(("targetSOClist"),
    Json.arr [Json.obj [(("plugType"), Json.num 0),
                        (("targetSOClevel"), Json.num dc_limit)],
              Json.obj [(("plugType"), Json.num 1),
                        (("targetSOClevel"), Json.num ac_limit)]])]

/-- The undecorated body of `set_charge_limits`. -/
def set_charge_limits_inner (cb : OtpCallback) (fuel : Nat)
    (vehicle_id : String) (ac_limit dc_limit : Int) : M Unit :=
  mBind (require_no_pending_action cb fuel vehicle_id) fun _ =>
  mBind (find_vehicle_key cb fuel vehicle_id) fun vehicle_key =>
  mBind (post_request cb fuel (some vehicle_key) set_charge_limits_url
    (set_charge_limits_body ac_limit dc_limit)) fun resp =>
  record_last_action ("set_charge_limits") resp

/-- `set_charge_limits` from `us_kia.py`. -/
def set_charge_limits (cb : OtpCallback) (fuel : Nat) (vehicle_id : String)
    (ac_limit dc_limit : Int) : M Unit :=
  request_with_active_session
    (set_charge_limits_inner cb fuel vehicle_id ac_limit dc_limit)

/-- The request body built by `get_cached_vehicle_status`. -/
def gvi_body (vehicle_key : String) : Json :=
  Json.obj [(("vehicleConfigReq"),
             Json.obj [(("airTempRange"), Json.str ("0")),
                       (("maintenance"), Json.str ("1")),
                       (("seatHeatCoolOption"), Json.str ("1")),
                       (("vehicle"), Json.str ("1")),
                       (("vehicleFeature"), Json.str ("1"))]),
            (("vehicleInfoReq"),
             Json.obj [(("drivingActivty"), Json.str ("0")),
                       (("dtc"), Json.str ("0")),
                       (("enrollment"), Json.str ("1")),
                       (("functionalCards"), Json.str ("0")),
                       (("location"), Json.str ("1")),
                       (("vehicleStatus"), Json.str ("1")),
                       (("weather"), Json.str ("0"))]),
            (("vinKey"), Json.arr [Json.str vehicle_key])]

/-- The undecorated body of `get_cached_vehicle_status`: resolve the
key, POST `cmm/gvi`, return `payload["vehicleInfoList"][0]`. -/
def get_cached_vehicle_status_inner (cb : OtpCallback) (fuel : Nat)
    (vehicle_id : String) : M Json :=
  mBind (find_vehicle_key cb fuel vehicle_id) fun vehicle_key =>
  mBind (post_request cb fuel (some vehicle_key) gvi_url
    (gvi_body vehicle_key)) fun resp =>
  match resp.json with
  | none => mRaise (ApiErr.pythonError ("json parse"))
  | some b =>
      match b.payload with
      | some (Json.obj payload) =>
          (match jlookup payload ("vehicleInfoList") with
           | some (Json.arr (first :: _)) => mPure first
           | some (Json.arr []) => mRaise (ApiErr.pythonError
               ("IndexError: list index out of range"))
           | some _ => mRaise (ApiErr.pythonError ("TypeError"))
           | none => mRaise (ApiErr.pythonError
               ("KeyError: vehicleInfoList")))
      | _ => mRaise (ApiErr.pythonError ("KeyError: payload"))

/-- `get_cached_vehicle_status` from `us_kia.py`. -/
def get_cached_vehicle_status (cb : OtpCallback) (fuel : Nat)
    (vehicle_id : String) : M Json :=
  request_with_active_session
    (get_cached_vehicle_status_inner cb fuel vehicle_id)

/-- The seven state-changing commands, with their domain parameters. -/
inductive Command where
  | lock
  | unlock
  | start_climate (set_temp : Int) (defrost climate heating : Bool)
      (driver_seat passenger_seat left_rear_seat right_rear_seat :
        Option SeatSettings)
  | stop_climate
  | start_charge
  | stop_charge
  | set_charge_limits (ac_limit dc_limit : Int)

/-- The command endpoint each state-changing command posts to. -/
def command_url : Command → String
  | Command.lock => lock_url
  | Command.unlock => unlock_url
  | Command.start_climate _ _ _ _ _ _ _ _ => start_climate_url
  | Command.stop_climate => stop_climate_url
  | Command.start_charge => start_charge_url
  | Command.stop_charge => stop_charge_url
  | Command.set_charge_limits _ _ => set_charge_limits_url

/-- Dispatch a `Command` to the corresponding decorated method. -/
def run_command (cb : OtpCallback) (fuel : Nat) (c : Command)
    (vehicle_id : String) : M Unit :=
  match c with
  | Command.lock => lock cb fuel vehicle_id
  | Command.unlock => unlock cb fuel vehicle_id
  | Command.start_climate t d cl h ds ps ls rs =>
      start_climate cb fuel vehicle_id t d cl h ds ps ls rs
  | Command.stop_climate => stop_climate cb fuel vehicle_id
  | Command.start_charge => start_charge cb fuel vehicle_id
  | Command.stop_charge => stop_charge cb fuel vehicle_id
  | Command.set_charge_limits ac dc =>
      set_charge_limits cb fuel vehicle_id ac dc

/-! ## Shared concrete scenario material -/

/-- A trivial OTP callback (never consulted in the scenarios using it). -/
def cb0 : OtpCallback := fun _ => {}

/-- A pending lock action marker. -/
def laX : LastAction := { name := "lock", xid := some "x1" }

/-- A one-vehicle directory: identifier "A", key "k1". -/
def vsA : List Json :=
  [Json.obj [(("vehicleIdentifier"), Json.str ("A")),
             (("vehicleKey"), Json.str ("k1"))]]

/-- A successful `ownr/gvl` response carrying the directory `vsA`. -/
def gvlRespA : Response :=
  { json := some { statusCode := 0, payload := some (Json.obj
      [(("vehicleSummary"), Json.arr vsA)]) } }

/-- A successful `cmm/gts` completion-poll response with payload `p`. -/
def pollResp (p : List (String × Json)) : Response :=
  { json := some { statusCode := 0, payload := some (Json.obj p) } }

/-- A successful login response carrying a fresh session id header. -/
def loginOkResp : Response :=
  { json := some { statusCode := 0 }, sid := some "sid2" }

/-- A session-invalid error response (statusCode 1, errorType 1,
errorCode 1003). -/
def authFailResp : Response :=
  { json := some { statusCode := 1, errorType := 1, errorCode := 1003,
                   errorMessage := "Session Key is either invalid or expired" } }

/-- A client with an authenticated session, a cached directory `vsA`,
and a pending action marker `la`; the script holds one completion-poll
response with payload `p`. -/
def pendingWorld (la : LastAction) (p : List (String × Json)) : World :=
  { client := { username := "u", password := "p", device_id := "d",
                session_id := some "s0", vehicles := some vsA,
                last_action := some la },
    script := [pollResp p], sent := [] }

/-- A client with an authenticated session and an empty directory cache
(`self.vehicles is None`), no pending action; the script holds one
directory response. -/
def emptyCacheWorld : World :=
  { client := { username := "u", password := "p", device_id := "d",
                session_id := some "s0" },
    script := [gvlRespA], sent := [] }

/-! ## C9 -/

/-- C9: `clean_dictionary_for_logging` maps
`{"password":"x","nested":{"vin":"1"}}` to
`{"password":"***","nested":{"vin":"***"}}`, redacting the fixed
sensitive field names recursively through nested mappings, and it is
idempotent: applying it twice equals applying it once, for every
dictionary. -/
theorem C9_redaction_example_and_idempotence :
    clean_dictionary_for_logging
        [(("password"), Json.str ("x")),
         (("nested"), Json.obj [(("vin"), Json.str ("1"))])]
      = [(("password"), Json.str ("***")),
         (("nested"), Json.obj [(("vin"), Json.str ("***"))])]
    ∧ ∀ d : List (String × Json),
        clean_dictionary_for_logging (clean_dictionary_for_logging d)
          = clean_dictionary_for_logging d :=
  ⟨rfl, clean_dictionary_for_logging_idem⟩

/-- C9 witness: the idempotence part evaluated at the example input. -/
theorem C9_redaction_witness :
    clean_dictionary_for_logging (clean_dictionary_for_logging
        [(("password"), Json.str ("x")),
         (("nested"), Json.obj [(("vin"), Json.str ("1"))])])
      = clean_dictionary_for_logging
        [(("password"), Json.str ("x")),
         (("nested"), Json.obj [(("vin"), Json.str ("1"))])] :=
  C9_redaction_example_and_idempotence.2
    [(("password"), Json.str ("x")),
     (("nested"), Json.obj [(("vin"), Json.str ("1"))])]

/-! ## C7 -/

/-- C7: over the directory `[{"vehicleIdentifier":"A","vehicleKey":"k1"}]`
served by the directory endpoint (cache initially empty), resolving "A"
returns "k1" after exactly one directory fetch, and resolving "B" raises
the vehicle-not-found `ValueError` after exactly one directory fetch —
the miss is fatal and the fetch is not retried. -/
theorem C7_find_vehicle_key_resolution :
    (find_vehicle_key cb0 1 ("A") emptyCacheWorld).2 = Except.ok ("k1")
    ∧ ((find_vehicle_key cb0 1 ("A") emptyCacheWorld).1.sent.map
        Request.url) = [gvl_url]
    ∧ (find_vehicle_key cb0 1 ("B") emptyCacheWorld).2
        = Except.error (ApiErr.valueError ("vehicle key for id:B not found"))
    ∧ ((find_vehicle_key cb0 1 ("B") emptyCacheWorld).1.sent.map
        Request.url) = [gvl_url] :=
  ⟨rfl, rfl, rfl, rfl⟩

/-! ## C5 -/

/-- A response with the action-conflict error code 1001 (statusCode 1,
errorType 1) — the code the conflict branch of `request_with_logging`
tests for. -/
def conflict1001Resp : Response :=
  { json := some { statusCode := 1, errorType := 1, errorCode := 1001,
                   errorMessage := "We cannot process your request" } }

/-- A world with a pending action marker, for observing the classifier's
side effects. -/
def classifyWorld : World :=
  { client := { username := "u", password := "p", device_id := "d",
                session_id := some "s0", last_action := some laX },
    script := [], sent := [] }

/-- Does a classification outcome raise `ActionAlreadyInProgressError`? -/
def is_action_conflict : Except ApiErr Response → Bool
  | Except.error (ApiErr.actionAlreadyInProgress _) => true
  | _ => false

/-- C5 (documents the code bug): the error classifier can never raise
`ActionAlreadyInProgressError` — its conflict branch tests errorCode
1001, which the session-invalid branch already captures — and on the
concrete 1001 conflict response it raises `AuthError` instead, leaving
the Last Action Marker set rather than clearing it. -/
theorem C5_conflict_branch_unreachable :
    (∀ (resp : Response) (w : World),
       is_action_conflict (request_with_logging_classify resp w).2 = false)
    ∧ (request_with_logging_classify conflict1001Resp classifyWorld).2
        = Except.error (ApiErr.authInvalid (""))
    ∧ (request_with_logging_classify conflict1001Resp
        classifyWorld).1.client.last_action = some laX := by
  refine ⟨?_, rfl, rfl⟩
  intro resp w
  unfold request_with_logging_classify
  cases hj : resp.json with
  | none => rfl
  | some b =>
      by_cases h0 : (b.statusCode == 0) = true
      · simp [h0, is_action_conflict]
      · by_cases h1 : (b.statusCode == 1 && b.errorType == 1 &&
            (b.errorCode == 1001 || b.errorCode == 1003 ||
             b.errorCode == 1005 || b.errorCode == 1037)) = true
        · simp [h0, h1, is_action_conflict]
        · have h2 : (b.statusCode == 1 && b.errorType == 1 &&
              b.errorCode == 1001) = false := by
            rcases Bool.eq_false_or_eq_true
              (b.statusCode == 1 && b.errorType == 1 &&
                b.errorCode == 1001) with ht | hf
            · exfalso
              apply h1
              simp only [Bool.and_eq_true, Bool.or_eq_true] at ht ⊢
              exact ⟨⟨ht.1.1, ht.1.2⟩, Or.inl (Or.inl (Or.inl ht.2))⟩
            · exact hf
          simp [h0, h1, h2, is_action_conflict]

/-! ## C10 -/

/-- A login response demanding an OTP: no session id header, an
`otpKey` in the payload, an `xid` header. -/
def otpChallengeResp : Response :=
  { json := some { statusCode := 0, payload := some (Json.obj
      [(("otpKey"), Json.str ("OK1")),
       (("hasEmail"), Json.bool true),
       (("email"), Json.str ("a@b.c"))]) },
    xid := some "x9" }

/-- A successful `cmm/sendOTP` response. -/
def sendOtpOkResp : Response := { json := some { statusCode := 0 } }

/-- A successful `cmm/verifyOTP` response with fresh session headers. -/
def verifyOkResp : Response :=
  { json := some { statusCode := 0 }, sid := some "sid9",
    rmtoken := some "rm9" }

/-- An OTP callback that omits `notify_type` at `choose_destination`
and supplies a code at `input_code`. -/
def cb10 : OtpCallback := fun ctx =>
  match ctx.stage with
  | OtpStage.choose_destination => {}
  | OtpStage.input_code => { otp_code := some "123456" }

/-- An OTP callback that chooses lowercase "sms" at
`choose_destination`. -/
def cb10b : OtpCallback := fun ctx =>
  match ctx.stage with
  | OtpStage.choose_destination => { notify_type := some "sms" }
  | OtpStage.input_code => { otp_code := some "123456" }

/-- A fresh unauthenticated client whose script carries a full OTP login
exchange: challenge, OTP dispatch, verification, re-login. -/
def otpFlowWorld : World :=
  { client := { username := "u", password := "p", device_id := "d" },
    script := [otpChallengeResp, sendOtpOkResp, verifyOkResp, loginOkResp],
    sent := [] }

/-- C10: when the `choose_destination` callback omits `notify_type`,
login does not fail — the destination defaults to "EMAIL" and the OTP
dispatch request goes out with the `notifytype` header "EMAIL"; a
supplied value is uppercased (lowercase "sms" dispatches as "SMS"). -/
theorem C10_choose_destination_default_email :
    (login cb10 2 otpFlowWorld).2 = Except.ok ()
    ∧ (login cb10 2 otpFlowWorld).1.sent.map
        (fun r => (r.url, r.headers.notifytype))
      = [(authUser_url, none), (sendOTP_url, some "EMAIL"),
         (verifyOTP_url, some "EMAIL"), (authUser_url, none)]
    ∧ (login cb10b 2 otpFlowWorld).2 = Except.ok ()
    ∧ (login cb10b 2 otpFlowWorld).1.sent.map
        (fun r => (r.url, r.headers.notifytype))
      = [(authUser_url, none), (sendOTP_url, some "SMS"),
         (verifyOTP_url, some "SMS"), (authUser_url, none)] :=
  ⟨rfl, rfl, rfl, rfl⟩

/-! ## Frame lemmas: the pipeline never installs OTP state or a new
Last Action Marker (outside the finally-guarded OTP block and the
command epilogues). -/

/-- An operation under which each of `otp_key`, `notify_type` and
`last_action` ends either unchanged or cleared to `none`. -/
def otp_la_mono {α : Type} (op : M α) : Prop :=
  ∀ w : World,
    ((op w).1.client.otp_key = w.client.otp_key
      ∨ (op w).1.client.otp_key = none)
    ∧ ((op w).1.client.notify_type = w.client.notify_type
      ∨ (op w).1.client.notify_type = none)
    ∧ ((op w).1.client.last_action = w.client.last_action
      ∨ (op w).1.client.last_action = none)

theorem otp_la_mono_of_client_eq {α : Type} (op : M α)
    (h : ∀ w, (op w).1.client = w.client) : otp_la_mono op := by
  intro w
  rw [h w]
  exact ⟨Or.inl rfl, Or.inl rfl, Or.inl rfl⟩

theorem otp_la_mono_pure {α : Type} (a : α) : otp_la_mono (mPure a) :=
  otp_la_mono_of_client_eq _ (fun _ => rfl)

theorem otp_la_mono_raise {α : Type} (e : ApiErr) :
    otp_la_mono (mRaise e : M α) :=
  otp_la_mono_of_client_eq _ (fun _ => rfl)

theorem otp_la_mono_getClient : otp_la_mono mGetClient :=
  otp_la_mono_of_client_eq _ (fun _ => rfl)

theorem otp_la_mono_send (req : Request) : otp_la_mono (mSend req) := by
  apply otp_la_mono_of_client_eq
  intro w
  unfold mSend
  cases w.script <;> rfl

theorem mono_chain {γ : Type} {a b c : Option γ}
    (h1 : b = a ∨ b = none) (h2 : c = b ∨ c = none) :
    c = a ∨ c = none := by
  rcases h2 with h2 | h2
  · rw [h2]; exact h1
  · exact Or.inr h2

theorem otp_la_mono_bind {α β : Type} (x : M α) (f : α → M β)
    (hx : otp_la_mono x) (hf : ∀ a, otp_la_mono (f a)) :
    otp_la_mono (mBind x f) := by
  intro w
  have h1 := hx w
  unfold mBind
  cases hxw : x w with
  | mk w1 r =>
      rw [hxw] at h1
      cases r with
      | ok a =>
          have h2 := hf a w1
          exact ⟨mono_chain h1.1 h2.1, mono_chain h1.2.1 h2.2.1,
                 mono_chain h1.2.2 h2.2.2⟩
      | error e => exact h1

theorem otp_la_mono_ite {α : Type} (c : Prop) [Decidable c] (x y : M α)
    (hx : otp_la_mono x) (hy : otp_la_mono y) :
    otp_la_mono (if c then x else y) := by
  by_cases h : c
  · simpa [h] using hx
  · simpa [h] using hy

theorem otp_la_mono_modify (f : ClientState → ClientState)
    (h1 : ∀ c, (f c).otp_key = c.otp_key ∨ (f c).otp_key = none)
    (h2 : ∀ c, (f c).notify_type = c.notify_type ∨ (f c).notify_type = none)
    (h3 : ∀ c, (f c).last_action = c.last_action ∨ (f c).last_action = none) :
    otp_la_mono (mModify f) := by
  intro w
  exact ⟨h1 w.client, h2 w.client, h3 w.client⟩

/-- The finally-guarded region of `login` clears all three fields at
exit, whatever its body does. -/
theorem otp_la_mono_finally_clear {α : Type} (body : M α) :
    otp_la_mono (mFinally body (fun c =>
      { c with otp_key := none, last_action := none,
               notify_type := none })) := by
  intro w
  unfold mFinally
  cases body w
  exact ⟨Or.inr rfl, Or.inr rfl, Or.inr rfl⟩

theorem otp_la_mono_classify (resp : Response) :
    otp_la_mono (request_with_logging_classify resp) := by
  intro w
  unfold request_with_logging_classify
  cases resp.json with
  | none => exact ⟨Or.inl rfl, Or.inl rfl, Or.inl rfl⟩
  | some b =>
      dsimp only
      split_ifs <;> simp

theorem otp_la_mono_send_and_classify (meth : Method)
    (vk : Option String) (url : String) (body : Option Json) :
    otp_la_mono (send_and_classify meth vk url body) := by
  unfold send_and_classify
  apply otp_la_mono_bind _ _ otp_la_mono_getClient
  intro c
  cases api_headers c vk with
  | error e => exact otp_la_mono_raise e
  | ok hs =>
      exact otp_la_mono_bind _ _ (otp_la_mono_send _)
        (fun resp => otp_la_mono_classify resp)

theorem otp_la_mono_login (cb : OtpCallback) (fuel : Nat) :
    otp_la_mono (login cb fuel) := by
  cases fuel with
  | zero => exact otp_la_mono_raise _
  | succ n =>
      unfold login
      refine otp_la_mono_bind _ _ otp_la_mono_getClient (fun c0 => ?_)
      refine otp_la_mono_bind _ _ (otp_la_mono_send_and_classify _ _ _ _)
        (fun resp => ?_)
      refine otp_la_mono_bind _ _
        (otp_la_mono_modify _ (fun c => Or.inl rfl)
          (fun c => Or.inl rfl) (fun c => Or.inl rfl)) (fun u => ?_)
      refine otp_la_mono_ite _ _ _ (otp_la_mono_pure ()) ?_
      cases resp.json with
      | none => exact otp_la_mono_raise _
      | some b =>
          dsimp only
          cases b.payload with
          | none => exact otp_la_mono_raise _
          | some p =>
              cases p with
              | obj payload =>
                  dsimp only
                  cases jlookup payload ("otpKey") with
                  | none => exact otp_la_mono_raise _
                  | some jk =>
                      cases jk with
                      | str otpKey => exact otp_la_mono_finally_clear _
                      | num n => exact otp_la_mono_raise _
                      | bool x => exact otp_la_mono_raise _
                      | null => exact otp_la_mono_raise _
                      | obj o => exact otp_la_mono_raise _
                      | arr a => exact otp_la_mono_raise _
              | str s => exact otp_la_mono_raise _
              | num n => exact otp_la_mono_raise _
              | bool x => exact otp_la_mono_raise _
              | null => exact otp_la_mono_raise _
              | arr a => exact otp_la_mono_raise _

theorem otp_la_mono_post_request (cb : OtpCallback) (fuel : Nat)
    (vk : Option String) (url : String) (body : Json) :
    otp_la_mono (post_request cb fuel vk url body) := by
  unfold post_request
  apply otp_la_mono_bind _ _ otp_la_mono_getClient
  intro c
  apply otp_la_mono_bind
  · exact otp_la_mono_ite _ _ _ (otp_la_mono_login cb fuel)
      (otp_la_mono_pure ())
  intro _
  exact otp_la_mono_send_and_classify _ _ _ _

theorem otp_la_mono_get_request (cb : OtpCallback) (fuel : Nat)
    (vk : Option String) (url : String) :
    otp_la_mono (get_request cb fuel vk url) := by
  unfold get_request
  apply otp_la_mono_bind _ _ otp_la_mono_getClient
  intro c
  apply otp_la_mono_bind
  · exact otp_la_mono_ite _ _ _ (otp_la_mono_login cb fuel)
      (otp_la_mono_pure ())
  intro _
  exact otp_la_mono_send_and_classify _ _ _ _

theorem otp_la_mono_wrapper {α : Type} (inner : M α)
    (h : otp_la_mono inner) :
    otp_la_mono (request_with_active_session inner) := by
  intro w
  have h1 := h w
  unfold request_with_active_session
  cases hiw : inner w with
  | mk w1 r =>
      rw [hiw] at h1
      cases r with
      | ok a => exact h1
      | error e =>
          cases e with
          | authInvalid m =>
              have h2 := h { w1 with client :=
                { w1.client with session_id := none, vehicles := none,
                                 last_action := none } }
              exact ⟨mono_chain h1.1 h2.1, mono_chain h1.2.1 h2.2.1,
                     Or.inr (by rcases h2.2.2 with hx | hx <;> exact hx)⟩
          | actionAlreadyInProgress m => exact h1
          | clientError m => exact h1
          | valueError m => exact h1
          | otpVerifyFailed m => exact h1
          | pythonError m => exact h1
          | scriptExhausted => exact h1

theorem otp_la_mono_get_vehicles_inner (cb : OtpCallback) (fuel : Nat) :
    otp_la_mono (get_vehicles_inner cb fuel) := by
  unfold get_vehicles_inner
  refine otp_la_mono_bind _ _ (otp_la_mono_get_request _ _ _ _)
    (fun resp => ?_)
  cases resp.json with
  | none => exact otp_la_mono_raise _
  | some b =>
      dsimp only
      cases b.payload with
      | none => exact otp_la_mono_raise _
      | some p =>
          cases p with
          | obj payload =>
              dsimp only
              cases jlookup payload ("vehicleSummary") with
              | none => exact otp_la_mono_raise _
              | some jv =>
                  cases jv with
                  | arr items =>
                      exact otp_la_mono_modify _ (fun c => Or.inl rfl)
                        (fun c => Or.inl rfl) (fun c => Or.inl rfl)
                  | str s => exact otp_la_mono_raise _
                  | num n => exact otp_la_mono_raise _
                  | bool x => exact otp_la_mono_raise _
                  | null => exact otp_la_mono_raise _
                  | obj o => exact otp_la_mono_raise _
          | str s => exact otp_la_mono_raise _
          | num n => exact otp_la_mono_raise _
          | bool x => exact otp_la_mono_raise _
          | null => exact otp_la_mono_raise _
          | arr a => exact otp_la_mono_raise _

theorem otp_la_mono_get_vehicles (cb : OtpCallback) (fuel : Nat) :
    otp_la_mono (get_vehicles cb fuel) :=
  otp_la_mono_wrapper _ (otp_la_mono_get_vehicles_inner cb fuel)

theorem otp_la_mono_find_vehicle_key (cb : OtpCallback) (fuel : Nat)
    (vehicle_id : String) :
    otp_la_mono (find_vehicle_key cb fuel vehicle_id) := by
  unfold find_vehicle_key
  refine otp_la_mono_bind _ _ otp_la_mono_getClient (fun c => ?_)
  refine otp_la_mono_bind _ _
    (otp_la_mono_ite _ _ _ (otp_la_mono_get_vehicles cb fuel)
      (otp_la_mono_pure ())) (fun u => ?_)
  refine otp_la_mono_bind _ _ otp_la_mono_getClient (fun c1 => ?_)
  cases c1.vehicles with
  | none => exact otp_la_mono_raise _
  | some vs =>
      dsimp only
      cases scan_vehicles vs vehicle_id with
      | ok r =>
          cases r with
          | none => exact otp_la_mono_raise _
          | some k => exact otp_la_mono_pure _
      | error e => exact otp_la_mono_raise _

theorem otp_la_mono_check_inner (cb : OtpCallback) (fuel : Nat)
    (vehicle_id : String) :
    otp_la_mono (check_last_action_finished_inner cb fuel vehicle_id) := by
  unfold check_last_action_finished_inner
  refine otp_la_mono_bind _ _ (otp_la_mono_find_vehicle_key cb fuel _)
    (fun vehicle_key => ?_)
  refine otp_la_mono_bind _ _ otp_la_mono_getClient (fun c => ?_)
  cases c.last_action with
  | none => exact otp_la_mono_pure _
  | some la =>
      dsimp only
      refine otp_la_mono_bind _ _ (otp_la_mono_post_request _ _ _ _ _)
        (fun resp => ?_)
      cases resp.json with
      | none => exact otp_la_mono_raise _
      | some b =>
          dsimp only
          cases b.payload with
          | none => exact otp_la_mono_raise _
          | some p =>
              cases p with
              | obj payload =>
                  refine otp_la_mono_bind _ _
                    (otp_la_mono_ite _ _ _
                      (otp_la_mono_modify _ (fun c1 => Or.inl rfl)
                        (fun c1 => Or.inl rfl) (fun c1 => Or.inr rfl))
                      (otp_la_mono_pure ()))
                    (fun u => otp_la_mono_pure _)
              | str s => exact otp_la_mono_raise _
              | num n => exact otp_la_mono_raise _
              | bool x => exact otp_la_mono_raise _
              | null => exact otp_la_mono_raise _
              | arr a => exact otp_la_mono_raise _

theorem otp_la_mono_check (cb : OtpCallback) (fuel : Nat)
    (vehicle_id : String) :
    otp_la_mono (check_last_action_finished cb fuel vehicle_id) :=
  otp_la_mono_wrapper _ (otp_la_mono_check_inner cb fuel vehicle_id)

theorem otp_la_mono_gvi_inner (cb : OtpCallback) (fuel : Nat)
    (vehicle_id : String) :
    otp_la_mono (get_cached_vehicle_status_inner cb fuel vehicle_id) := by
  unfold get_cached_vehicle_status_inner
  refine otp_la_mono_bind _ _ (otp_la_mono_find_vehicle_key cb fuel _)
    (fun vehicle_key => ?_)
  refine otp_la_mono_bind _ _ (otp_la_mono_post_request _ _ _ _ _)
    (fun resp => ?_)
  cases resp.json with
  | none => exact otp_la_mono_raise _
  | some b =>
      dsimp only
      cases b.payload with
      | none => exact otp_la_mono_raise _
      | some p =>
          cases p with
          | obj payload =>
              dsimp only
              cases jlookup payload ("vehicleInfoList") with
              | none => exact otp_la_mono_raise _
              | some jv =>
                  cases jv with
                  | arr items =>
                      cases items with
                      | nil => exact otp_la_mono_raise _
                      | cons first rest => exact otp_la_mono_pure _
                  | str s => exact otp_la_mono_raise _
                  | num n => exact otp_la_mono_raise _
                  | bool x => exact otp_la_mono_raise _
                  | null => exact otp_la_mono_raise _
                  | obj o => exact otp_la_mono_raise _
          | str s => exact otp_la_mono_raise _
          | num n => exact otp_la_mono_raise _
          | bool x => exact otp_la_mono_raise _
          | null => exact otp_la_mono_raise _
          | arr a => exact otp_la_mono_raise _

theorem otp_la_mono_gvi (cb : OtpCallback) (fuel : Nat)
    (vehicle_id : String) :
    otp_la_mono (get_cached_vehicle_status cb fuel vehicle_id) :=
  otp_la_mono_wrapper _ (otp_la_mono_gvi_inner cb fuel vehicle_id)

/-! ## C6 -/

/-- The OTP challenge state is fully cleared: `otp_key`, `notify_type`
and the marker holding the challenge transaction id are all absent. -/
def otp_state_clear (c : ClientState) : Prop :=
  c.otp_key = none ∧ c.notify_type = none ∧ c.last_action = none

/-- An OTP callback returning an empty `otp_code` at `input_code`. -/
def cb6 : OtpCallback := fun ctx =>
  match ctx.stage with
  | OtpStage.choose_destination => { notify_type := some "SMS" }
  | OtpStage.input_code => { otp_code := some "" }

/-- An OTP callback omitting `otp_code` entirely at `input_code`. -/
def cb6b : OtpCallback := fun ctx =>
  match ctx.stage with
  | OtpStage.choose_destination => { notify_type := some "SMS" }
  | OtpStage.input_code => {}

/-- A fresh unauthenticated client whose script carries the OTP
challenge and the OTP dispatch acknowledgement (the flow is abandoned
before verification). -/
def otpAbandonWorld : World :=
  { client := { username := "u", password := "p", device_id := "d" },
    script := [otpChallengeResp, sendOtpOkResp], sent := [] }

/-- C6: an OTP callback answering `input_code` with an empty `otp_code`
(or omitting the key) makes login fail with `AuthError` ("OTP code
required"), and the OTP challenge state is fully cleared afterwards;
moreover — both on success and on failure — a login started with clear
OTP challenge state always ends with it clear. -/
theorem C6_otp_abandonment_clears_state :
    ((login cb6 2 otpAbandonWorld).2
        = Except.error (ApiErr.authInvalid ("OTP code required"))
      ∧ otp_state_clear (login cb6 2 otpAbandonWorld).1.client)
    ∧ ((login cb6b 2 otpAbandonWorld).2
        = Except.error (ApiErr.authInvalid ("OTP code required"))
      ∧ otp_state_clear (login cb6b 2 otpAbandonWorld).1.client)
    ∧ ∀ (cb : OtpCallback) (fuel : Nat) (w : World),
        otp_state_clear w.client →
        otp_state_clear (login cb fuel w).1.client := by
  refine ⟨⟨rfl, rfl, rfl, rfl⟩, ⟨rfl, rfl, rfl, rfl⟩, ?_⟩
  intro cb fuel w h
  obtain ⟨h1, h2, h3⟩ := h
  have m := otp_la_mono_login cb fuel w
  refine ⟨?_, ?_, ?_⟩
  · rcases m.1 with hx | hx
    · rw [hx, h1]
    · exact hx
  · rcases m.2.1 with hx | hx
    · rw [hx, h2]
    · exact hx
  · rcases m.2.2 with hx | hx
    · rw [hx, h3]
    · exact hx

/-- C6 witness: the general clearing conjunct applied to a concrete
fresh client (hypotheses discharged definitionally). -/
theorem C6_otp_abandonment_witness :
    otp_state_clear (login cb0 0 otpAbandonWorld).1.client :=
  C6_otp_abandonment_clears_state.2.2 cb0 0 otpAbandonWorld ⟨rfl, rfl, rfl⟩

/-! ## C8 -/

/-- A client with a pending marker whose first scripted response is a
session-invalid error, followed by a successful re-login and a
successful directory response: the auth-repair path runs. -/
def repairWorld : World :=
  { client := { username := "u", password := "p", device_id := "d",
                session_id := some "s0", vehicles := some vsA,
                last_action := some laX },
    script := [authFailResp, loginOkResp, gvlRespA], sent := [] }

/-- A client with a pending marker whose scripted response succeeds
at once: no repair happens. -/
def markerWorld : World :=
  { client := { username := "u", password := "p", device_id := "d",
                session_id := some "s0", vehicles := some vsA,
                last_action := some laX },
    script := [gvlRespA], sent := [] }

/-- C8 counterexample: `get_vehicles` is not read-only with respect to
the Last Action Marker — when its first attempt hits a session-invalid
error, the repair path clears the marker, so the call succeeds yet
`last_action` changes from a pending marker to `none`. -/
theorem C8_counterexample_get_vehicles_clears_marker :
    repairWorld.client.last_action = some laX
    ∧ (get_vehicles cb0 1 repairWorld).2 = Except.ok ()
    ∧ (get_vehicles cb0 1 repairWorld).1.client.last_action = none :=
  ⟨rfl, rfl, rfl⟩

/-- C8 amended: `get_vehicles` and `get_cached_vehicle_status` never
install a Last Action Marker — after any invocation the marker is
either exactly its prior value or `none` (cleared by the AuthInvalid
session-repair path) — and an invocation that completes without repair
leaves it unchanged (concrete run). -/
theorem C8_status_methods_marker_monotone :
    (∀ (cb : OtpCallback) (fuel : Nat) (w : World),
       (get_vehicles cb fuel w).1.client.last_action
           = w.client.last_action
       ∨ (get_vehicles cb fuel w).1.client.last_action = none)
    ∧ (∀ (cb : OtpCallback) (fuel : Nat) (vehicle_id : String) (w : World),
       (get_cached_vehicle_status cb fuel vehicle_id w).1.client.last_action
           = w.client.last_action
       ∨ (get_cached_vehicle_status cb fuel vehicle_id
           w).1.client.last_action = none)
    ∧ (get_vehicles cb0 1 markerWorld).1.client.last_action = some laX :=
  ⟨fun cb fuel w => (otp_la_mono_get_vehicles cb fuel w).2.2,
   fun cb fuel vehicle_id w => (otp_la_mono_gvi cb fuel vehicle_id w).2.2,
   rfl⟩

/-- C8 witness: the monotonicity conjunct evaluated on the concrete
repair scenario. -/
theorem C8_status_methods_witness :
    (get_vehicles cb0 1 repairWorld).1.client.last_action
        = repairWorld.client.last_action
    ∨ (get_vehicles cb0 1 repairWorld).1.client.last_action = none :=
  C8_status_methods_marker_monotone.1 cb0 1 repairWorld

/-! ## C4 -/

/-- C4 counterexample: with no Last Action Marker but an empty vehicle
directory cache, `check_last_action_finished` does contact the server —
it resolves the vehicle key first, fetching the directory — even though
it then reports finished. -/
theorem C4_counterexample_poll_contacts_server :
    emptyCacheWorld.client.last_action = none
    ∧ (check_last_action_finished cb0 1 ("A") emptyCacheWorld).2
        = Except.ok true
    ∧ ((check_last_action_finished cb0 1 ("A") emptyCacheWorld).1.sent.map
        Request.url) = [gvl_url] :=
  ⟨rfl, rfl, rfl⟩

/-- C4 amended: whenever no Last Action Marker exists and the vehicle
directory cache is populated with the requested vehicle, the completion
poll reports finished immediately and performs no network call at all
(the world, its request trace included, is unchanged); with an empty
cache the only server contact is the directory fetch, never the
action-status endpoint. -/
theorem C4_no_marker_poll_finished (cb : OtpCallback) (fuel : Nat)
    (vid k : String) (vs : List Json) (w : World)
    (hla : w.client.last_action = none)
    (hv : w.client.vehicles = some vs)
    (hscan : scan_vehicles vs vid = Except.ok (some k)) :
    check_last_action_finished cb fuel vid w = (w, Except.ok true) := by
  unfold check_last_action_finished request_with_active_session
    check_last_action_finished_inner find_vehicle_key
  simp [mBind, mGetClient, mPure, mRaise, hv, hla, hscan]

/-- A client with a populated directory cache, no marker and no
scripted traffic. -/
def cachedIdleWorld : World :=
  { client := { username := "u", password := "p", device_id := "d",
                session_id := some "s0", vehicles := some vsA },
    script := [], sent := [] }

/-- C4 witness: the amended theorem at a concrete cached world. -/
theorem C4_no_marker_poll_witness :
    check_last_action_finished cb0 1 ("A") cachedIdleWorld
      = (cachedIdleWorld, Except.ok true) :=
  C4_no_marker_poll_finished cb0 1 ("A") ("k1") vsA cachedIdleWorld
    rfl rfl rfl

/-! ## C3 -/

/-- C3: with a pending marker and a cached directory, the completion
poll returns finished exactly when every value of the poll payload
equals 0 (Python `==`), clears the marker when finished, and leaves the
marker set otherwise. -/
theorem C3_poll_all_zero_rule (la : LastAction)
    (p : List (String × Json)) :
    (check_last_action_finished cb0 1 ("A") (pendingWorld la p)).2
        = Except.ok (p.all fun kv => jeqZero kv.2)
    ∧ (check_last_action_finished cb0 1 ("A")
        (pendingWorld la p)).1.client.last_action
        = (if (p.all fun kv => jeqZero kv.2) then none else some la) := by
  cases hf : p.all fun kv => jeqZero kv.2 <;>
    refine ⟨?_, ?_⟩ <;>
      simp [check_last_action_finished, check_last_action_finished_inner,
        request_with_active_session, find_vehicle_key, scan_vehicles,
        jlookup, post_request, send_and_classify, api_headers,
        request_with_logging_classify, mBind, mPure, mRaise, mGetClient,
        mModify, mSend, pendingWorld, pollResp, vsA, hf]

/-- C3 witness: the poll rule at the two payloads of the specification,
`{"a":0,"b":0}` (finished, marker cleared) and `{"a":0,"b":1}` (not
finished, marker kept). -/
theorem C3_poll_all_zero_witness :
    ((check_last_action_finished cb0 1 ("A")
        (pendingWorld laX [(("a"), Json.num 0), (("b"), Json.num 0)])).2
      = Except.ok true
    ∧ (check_last_action_finished cb0 1 ("A")
        (pendingWorld laX [(("a"), Json.num 0),
          (("b"), Json.num 0)])).1.client.last_action = none)
    ∧ ((check_last_action_finished cb0 1 ("A")
        (pendingWorld laX [(("a"), Json.num 0), (("b"), Json.num 1)])).2
      = Except.ok false
    ∧ (check_last_action_finished cb0 1 ("A")
        (pendingWorld laX [(("a"), Json.num 0),
          (("b"), Json.num 1)])).1.client.last_action = some laX) :=
  ⟨C3_poll_all_zero_rule laX [(("a"), Json.num 0), (("b"), Json.num 0)],
   C3_poll_all_zero_rule laX [(("a"), Json.num 0), (("b"), Json.num 1)]⟩

/-! ## C1 -/

/-- C1: with a pending Last Action Marker whose completion poll reports
incomplete (some payload value nonzero), every state-changing command
raises `ActionAlreadyInProgressError` naming the pending action, and
the only request sent is the completion poll — the command endpoint is
never contacted (and the poll endpoint is not a command endpoint). -/
theorem C1_commands_blocked_while_pending (c : Command) (la : LastAction)
    (p : List (String × Json))
    (hp : (p.all fun kv => jeqZero kv.2) = false) :
    (run_command cb0 1 c ("A") (pendingWorld la p)).2
        = Except.error (ApiErr.actionAlreadyInProgress
            (la.name ++ " still pending"))
    ∧ ((run_command cb0 1 c ("A") (pendingWorld la p)).1.sent.map
        Request.url) = [gts_url]
    ∧ (command_url c == gts_url) = false := by
  cases c <;>
    exact ⟨by
      simp [run_command, lock, unlock, start_climate, stop_climate,
        start_charge, stop_charge, set_charge_limits, lock_inner,
        unlock_inner, start_climate_inner, stop_climate_inner,
        start_charge_inner, stop_charge_inner, set_charge_limits_inner,
        require_no_pending_action, record_last_action,
        check_last_action_finished, check_last_action_finished_inner,
        request_with_active_session, find_vehicle_key, scan_vehicles,
        jlookup, post_request, get_request, send_and_classify, api_headers,
        request_with_logging_classify, mBind, mPure, mRaise, mGetClient,
        mModify, mSend, pendingWorld, pollResp, vsA, hp],
    by
      simp [run_command, lock, unlock, start_climate, stop_climate,
        start_charge, stop_charge, set_charge_limits, lock_inner,
        unlock_inner, start_climate_inner, stop_climate_inner,
        start_charge_inner, stop_charge_inner, set_charge_limits_inner,
        require_no_pending_action, record_last_action,
        check_last_action_finished, check_last_action_finished_inner,
        request_with_active_session, find_vehicle_key, scan_vehicles,
        jlookup, post_request, get_request, send_and_classify, api_headers,
        request_with_logging_classify, mBind, mPure, mRaise, mGetClient,
        mModify, mSend, pendingWorld, pollResp, vsA, hp],
    rfl⟩

/-- C1 witness: the lock command at the incomplete payload `{"a":1}`. -/
theorem C1_commands_blocked_witness :
    ((([(("a"), Json.num 1)] : List (String × Json)).all
        fun kv => jeqZero kv.2) = false)
    ∧ (run_command cb0 1 Command.lock ("A")
        (pendingWorld laX [(("a"), Json.num 1)])).2
      = Except.error (ApiErr.actionAlreadyInProgress ("lock still pending")) :=
  ⟨rfl,
   (C1_commands_blocked_while_pending Command.lock laX
      [(("a"), Json.num 1)] rfl).1⟩

/-! ## C2 -/

/-- The session-invalid test of the error classifier, as a predicate on
a decoded response body. -/
def session_invalid_body (b : ResponseBody) : Bool :=
  b.statusCode == 1 && b.errorType == 1 &&
    (b.errorCode == 1001 || b.errorCode == 1003 ||
     b.errorCode == 1005 || b.errorCode == 1037)

theorem session_invalid_not_ok (b : ResponseBody)
    (h : session_invalid_body b = true) : (b.statusCode == 0) = false := by
  unfold session_invalid_body at h
  simp only [Bool.and_eq_true, beq_iff_eq] at h
  rw [h.1.1]
  rfl

/-- A client with an authenticated session, a cached directory and a
pending marker, scripted to answer the original request with `r1`, the
re-login with a fresh session id, and the retried request with `r2`. -/
def authedWorld (vs0 : List Json) (la0 : LastAction) (r1 r2 : Response) :
    World :=
  { client := { username := "u", password := "p", device_id := "d",
                session_id := some "s0", vehicles := some vs0,
                last_action := some la0 },
    script := [r1, loginOkResp, r2], sent := [] }

/-- C2: an authenticated request whose first attempt yields a
session-invalid response is retried exactly once: the wrapper clears
session id, vehicle directory and Last Action Marker, the retry logs in
exactly once (one `prof/authUser` call, sent without a session header)
and re-sends the original request once under the fresh session id; a
session-invalid response to the retry propagates as `AuthError` with no
third attempt — the trace holds exactly these three requests. -/
theorem C2_auth_retry_once (url : String) (body : Json)
    (vk : Option String) (b1 b2 : ResponseBody) (vs0 : List Json)
    (la0 : LastAction)
    (h1 : session_invalid_body b1 = true)
    (h2 : session_invalid_body b2 = true) :
    (request_with_active_session (post_request cb0 1 vk url body)
        (authedWorld vs0 la0 { json := some b1 } { json := some b2 })).2
      = Except.error (ApiErr.authInvalid (""))
    ∧ (request_with_active_session (post_request cb0 1 vk url body)
        (authedWorld vs0 la0 { json := some b1 }
          { json := some b2 })).1.sent.map
        (fun r => (r.url, r.headers.sid))
      = [(url, some "s0"), (authUser_url, none), (url, some "sid2")]
    ∧ (request_with_active_session (post_request cb0 1 vk url body)
        (authedWorld vs0 la0 { json := some b1 }
          { json := some b2 })).1.client.session_id = some "sid2"
    ∧ (request_with_active_session (post_request cb0 1 vk url body)
        (authedWorld vs0 la0 { json := some b1 }
          { json := some b2 })).1.client.vehicles = none
    ∧ (request_with_active_session (post_request cb0 1 vk url body)
        (authedWorld vs0 la0 { json := some b1 }
          { json := some b2 })).1.client.last_action = none := by
  have e1 := session_invalid_not_ok b1 h1
  have e2 := session_invalid_not_ok b2 h2
  have hsid : ("sid2").isEmpty = false := rfl
  unfold session_invalid_body at h1 h2
  refine ⟨?_, ?_, ?_, ?_, ?_⟩ <;>
    simp [request_with_active_session, post_request, login, login_body,
      send_and_classify, api_headers, request_with_logging_classify,
      strTruthy, mBind, mPure, mRaise, mGetClient, mModify, mSend,
      mFinally, authedWorld, loginOkResp, e1, e2, h1, h2, hsid]

/-- The concrete session-invalid body (errorCode 1003). -/
def sessionInvalid1003 : ResponseBody :=
  { statusCode := 1, errorType := 1, errorCode := 1003,
    errorMessage := "Session Key is either invalid or expired" }

/-- C2 witness: the retry-once behaviour at a concrete request and
concrete session-invalid responses. -/
theorem C2_auth_retry_once_witness :
    (session_invalid_body sessionInvalid1003 = true)
    ∧ (request_with_active_session
        (post_request cb0 1 (some "k1") (gvl_url) (Json.obj []))
        (authedWorld vsA laX { json := some sessionInvalid1003 }
          { json := some sessionInvalid1003 })).2
      = Except.error (ApiErr.authInvalid ("")) :=
  ⟨rfl,
   (C2_auth_retry_once (gvl_url) (Json.obj []) (some "k1")
      sessionInvalid1003 sessionInvalid1003 vsA laX rfl rfl).1⟩
